import Mathlib

/-!
# Verification of `litellm/llms/openai.py`

A shallow embedding of the parts of `litellm/llms/openai.py` that the
specification's claims are about:

* the error-triggered message-reformatting retry loop of
  `OpenAIChatCompletion.completion` (synchronous, non-streaming path);
* the `OpenAIError` normalization of exceptions;
* `OpenAIConfig.get_supported_openai_params` and
  `OpenAIConfig.map_openai_params`;
* `OpenAITextCompletionConfig.convert_to_chat_model_response_object`;
* the class-level configuration state of `MistralConfig`
  (`__init__` / `get_config`).

Python dicts used as string-keyed maps are embedded as association lists
with insertion-order semantics; Python `pat in s` substring tests are
embedded as an explicit substring scan on the character lists.
-/

/-! ## Substring containment (Python `pat in s`) -/

/-- `startsWithL pat s`: the character list `s` starts with `pat`. -/
def startsWithL : List Char → List Char → Bool
  | [], _ => true
  | _ :: _, [] => false
  | a :: pas, b :: bs => a == b && startsWithL pas bs

/-- `hasSubL pat s`: `pat` occurs as a contiguous sublist of `s`. -/
def hasSubL (pat : List Char) : List Char → Bool
  | [] => pat.isEmpty
  | c :: cs => startsWithL pat (c :: cs) || hasSubL pat cs

/-- Python `pat in s` for strings. -/
def strContains (s pat : String) : Bool :=
  hasSubL pat.toList s.toList

/-! ## Chat messages and the reformatting rewrite

Embeds the message dicts `{"role": ..., "content": ...}` handled by
`OpenAIChatCompletion.completion` (`litellm/llms/openai.py`, lines 646-670).
-/

/-- A chat message dict `{"role": r, "content": c}`. -/
structure Msg where
  role : String
  content : String
deriving DecidableEq, Repr

/-- The blank message appended for the "Last message must have role" error:
`{"role": "user", "content": ""}`. -/
def blank_user : Msg := { role := "user", content := "" }

/-- The blank message inserted between two consecutive messages of equal
role `r`: an assistant message if `r` is `"user"`, else a user message
(lines 656-662 of `openai.py`). -/
def filler_for (r : String) : Msg :=
  if r == "user" then { role := "assistant", content := "" }
  else { role := "user", content := "" }

/-- The body of the reformatting loop (lines 653-663 of `openai.py`):
walk over indices `0 .. len-2`, appending each message and, when the next
message has the same role, a blank message of the other role; finally the
last message is appended.  Embedded as structural recursion on the list. -/
def insert_alternating : List Msg → List Msg
  | [] => []
  | [m] => [m]
  | m1 :: m2 :: rest =>
    if m1.role == m2.role then
      m1 :: filler_for m1.role :: insert_alternating (m2 :: rest)
    else
      m1 :: insert_alternating (m2 :: rest)

/-- The whole reformatting block: on the empty list the Python code evaluates
`messages[-1]`, which raises `IndexError` (no rewritten list is produced);
on a non-empty list it produces the reinterleaved list. -/
def reformat_messages (messages : List Msg) : Option (List Msg) :=
  match messages with
  | [] => none
  | _ :: _ => some (insert_alternating messages)

/-! ## Exceptions and `OpenAIError` normalization -/

/-- A Python exception as observed by `completion`'s handlers: either an
`OpenAIError` (which always carries `status_code` and `message`, see
`OpenAIError.__init__`, lines 31-53) or any other exception, carrying its
`str(e)` text and an optional `status_code` attribute. -/
inductive Exc where
  | openAIErr (status_code : Nat) (message : String)
  | other (text : String) (status_code : Option Nat)
deriving DecidableEq, Repr

/-- `str(e)`: for an `OpenAIError` this is the message it was constructed
with (it is passed to `Exception.__init__`); otherwise the exception text. -/
def Exc.str : Exc → String
  | .openAIErr _ m => m
  | .other t _ => t

/-- The `IndexError` raised by `messages[-1]` on an empty list: it has no
`status_code` attribute. -/
def index_error : Exc := .other "list index out of range" none

/-- The outer exception handlers of `completion` (lines 673-680):
an `OpenAIError` is re-raised unchanged; any other exception with a
`status_code` attribute becomes `OpenAIError(status_code=e.status_code,
message=str(e))`; any remaining exception becomes
`OpenAIError(status_code=500, message=traceback.format_exc())`.
`format_exc` stands for `traceback.format_exc()` at the handler. -/
def normalizeError (format_exc : Exc → String) : Exc → Exc
  | .openAIErr c m => .openAIErr c m
  | .other t (some c) => .openAIErr c t
  | .other t none => .openAIErr 500 (format_exc (.other t none))

/-! ## The retry loop of `OpenAIChatCompletion.completion` -/

/-- The three vendor phrases string-matched against `str(e)`
(lines 647, 648 and 666 of `openai.py`). -/
def alternate_phrase_1 : String := "Conversation roles must alternate user/assistant"

/-- Second phrase of the alternating-roles match (line 648). -/
def alternate_phrase_2 : String := "user and assistant roles should be alternating"

/-- Phrase of the append-blank-user match (line 666). -/
def last_user_phrase : String := "Last message must have role `user`"

/-- The alternating-roles condition of the first `if` branch (lines 646-649). -/
def matches_alternating (e : Exc) : Bool :=
  strContains e.str alternate_phrase_1 || strContains e.str alternate_phrase_2

/-- The condition of the `elif` branch (line 666). -/
def matches_last_user (e : Exc) : Bool :=
  strContains e.str last_user_phrase

/-- The rewrite the handler applies to `messages` when the error text matched
one of the three phrases; `none` when no phrase matched (the exception is
re-raised instead).  Matching the alternating phrases triggers
`reformat_messages`; matching the last-user phrase appends a blank user
message. -/
def matched_rewrite (e : Exc) (messages : List Msg) : Option (List Msg) :=
  if matches_alternating e then reformat_messages messages
  else if matches_last_user e then some (messages ++ [blank_user])
  else none

/-- Outcome of one provider call `openai_client.chat.completions.create(...)`
(and of the surrounding body of the inner `try`): a response of type `ρ`, or
a raised exception. -/
inductive CallOutcome (ρ : Type) where
  | ok (resp : ρ)
  | err (e : Exc)

/-- What an invocation of the synchronous, non-streaming `completion` path
does: return a converted response, fall off the end of the `for` loop
(Python then returns `None`), or raise an exception. -/
inductive CompletionResult (ρ : Type) where
  | response (resp : ρ)
  | noResponse
  | raised (e : Exc)
deriving DecidableEq, Repr

/-- The `for _ in range(2)` retry loop (lines 555-672), synchronous
non-streaming path, instrumented with the number of provider calls made.
`provider` maps the current message list to the call's outcome (the other
request data does not change between the two iterations).  A caught error
matching the alternating phrases reformats the messages — on an empty list
that reformatting itself raises `IndexError`, which escapes to the outer
handlers; a caught error matching the last-user phrase appends a blank user
message; any other error is re-raised and normalized by the outer handlers. -/
def completion_loop {ρ : Type} (provider : List Msg → CallOutcome ρ)
    (format_exc : Exc → String) :
    Nat → List Msg → Nat → CompletionResult ρ × Nat
  | 0, _, calls => (.noResponse, calls)
  | fuel + 1, messages, calls =>
    match provider messages with
    | .ok resp => (.response resp, calls + 1)
    | .err e =>
      if matches_alternating e then
        match reformat_messages messages with
        | some new_messages =>
            completion_loop provider format_exc fuel new_messages (calls + 1)
        | none => (.raised (normalizeError format_exc index_error), calls + 1)
      else if matches_last_user e then
        completion_loop provider format_exc fuel (messages ++ [blank_user]) (calls + 1)
      else
        (.raised (normalizeError format_exc e), calls + 1)

/-- `OpenAIChatCompletion.completion`, synchronous non-streaming path, for
the plain `"openai"` provider (no prompt-factory transformation): the
`model is None or messages is None` guard raises `OpenAIError(422,
"Missing model or messages")` (line 527); otherwise the two-iteration retry
loop runs.  The second component counts provider calls. -/
def completion {ρ : Type} (provider : List Msg → CallOutcome ρ)
    (format_exc : Exc → String) (model : Option String)
    (messages : Option (List Msg)) : CompletionResult ρ × Nat :=
  match model, messages with
  | some _, some msgs => completion_loop provider format_exc 2 msgs 0
  | _, _ => (.raised (.openAIErr 422 "Missing model or messages"), 0)

/-! ## `OpenAIConfig` parameter allow-listing -/

/-- The `base_params` list of `OpenAIConfig.get_supported_openai_params`
(lines 336-357). -/
def OpenAIConfig.base_params : List String :=
  ["frequency_penalty", "logit_bias", "logprobs", "top_logprobs", "max_tokens",
   "n", "presence_penalty", "seed", "stop", "stream", "stream_options",
   "temperature", "top_p", "tools", "tool_choice", "user", "function_call",
   "functions", "max_retries", "extra_headers"]

/-- `OpenAIConfig.get_supported_openai_params` (lines 335-365):
`base_params` plus `"response_format"` unless the model is
`"gpt-3.5-turbo-16k"` or `"gpt-4"`. -/
def OpenAIConfig.get_supported_openai_params (model : String) : List String :=
  OpenAIConfig.base_params ++
    (if model ≠ "gpt-3.5-turbo-16k" ∧ model ≠ "gpt-4" then ["response_format"] else [])

/-- Python dict assignment `d[k] = v`: update the value in place if the key
exists, otherwise append the entry (insertion-order semantics). -/
def dictSet {V : Type} (d : List (String × V)) (k : String) (v : V) :
    List (String × V) :=
  if d.any (fun p => p.1 == k) then
    d.map (fun p => if p.1 == k then (p.1, v) else p)
  else d ++ [(k, v)]

/-- Python dict lookup `d.get(k)` on the association-list embedding
(first match; the embedded dicts keep their keys unique). -/
def dictGet {V : Type} : List (String × V) → String → Option V
  | [], _ => none
  | p :: rest, k => if p.1 == k then some p.2 else dictGet rest k

/-- `OpenAIConfig.map_openai_params` (lines 367-374): iterate over
`non_default_params` and copy each entry whose key is in
`get_supported_openai_params(model)` into `optional_params`. -/
def OpenAIConfig.map_openai_params {V : Type}
    (non_default_params optional_params : List (String × V)) (model : String) :
    List (String × V) :=
  non_default_params.foldl
    (fun acc p =>
      if (OpenAIConfig.get_supported_openai_params model).contains p.1 then
        dictSet acc p.1 p.2
      else acc)
    optional_params

/-! ## `MistralConfig` class-level state -/

/-- The data attributes of the class object `MistralConfig` (its
`cls.__dict__` minus dunder entries, methods, classmethods and
staticmethods, which `get_config` filters out).  All eight declared
parameter fields are `Optional` (lines 79-86); `V` stands for the Python
values stored. -/
structure MistralClassState (V : Type) where
  temperature : Option V
  top_p : Option V
  max_tokens : Option V
  tools : Option V
  tool_choice : Option V
  random_seed : Option V
  safe_prompt : Option V
  response_format : Option V
deriving DecidableEq, Repr

/-- The class attributes as declared (lines 79-86): every field defaults to
`None`. -/
def MistralConfig.initialState (V : Type) : MistralClassState V :=
  { temperature := none, top_p := none, max_tokens := none, tools := none,
    tool_choice := none, random_seed := none, safe_prompt := none,
    response_format := none }

/-- `MistralConfig.__init__` (lines 88-102): for each argument that is not
`None`, `setattr(self.__class__, key, value)` writes it onto the CLASS —
mutating state shared by every instance and every later call.  Arguments
passed as `None` leave the corresponding class attribute unchanged. -/
def MistralConfig.init {V : Type} (s : MistralClassState V)
    (temperature top_p max_tokens tools tool_choice random_seed safe_prompt
      response_format : Option V) : MistralClassState V :=
  { temperature := match temperature with | some v => some v | none => s.temperature,
    top_p := match top_p with | some v => some v | none => s.top_p,
    max_tokens := match max_tokens with | some v => some v | none => s.max_tokens,
    tools := match tools with | some v => some v | none => s.tools,
    tool_choice := match tool_choice with | some v => some v | none => s.tool_choice,
    random_seed := match random_seed with | some v => some v | none => s.random_seed,
    safe_prompt := match safe_prompt with | some v => some v | none => s.safe_prompt,
    response_format := match response_format with | some v => some v | none => s.response_format }

/-- The name/value pairs of the modelled part of `cls.__dict__`, in
declaration order.  (The real `cls.__dict__` additionally holds dunder
entries and the methods, which `get_config`'s `startswith("__")` and
function/classmethod/staticmethod filters remove.) -/
def MistralConfig.classDict {V : Type} (s : MistralClassState V) :
    List (String × Option V) :=
  [("temperature", s.temperature), ("top_p", s.top_p),
   ("max_tokens", s.max_tokens), ("tools", s.tools),
   ("tool_choice", s.tool_choice), ("random_seed", s.random_seed),
   ("safe_prompt", s.safe_prompt), ("response_format", s.response_format)]

/-- `MistralConfig.get_config` (lines 104-120): the non-dunder,
non-function class attributes whose value is not `None`. -/
def MistralConfig.get_config {V : Type} (s : MistralClassState V) :
    List (String × V) :=
  (MistralConfig.classDict s).filterMap
    (fun p => match p.2 with | some v => some (p.1, v) | none => none)

/-! ## `OpenAITextCompletionConfig.convert_to_chat_model_response_object` -/

/-- The `Message` objects built by the converter (`litellm.utils.Message`):
only `content` and `role` are relevant here. -/
structure RespMessage where
  content : String
  role : String
deriving DecidableEq, Repr

/-- The `Choices` objects built by the converter (`litellm.utils.Choices`). -/
structure RespChoice where
  finish_reason : String
  index : Nat
  message : RespMessage
deriving DecidableEq, Repr

/-- The `usage` payload (`litellm.utils.Usage`); the converter copies it
verbatim, so only its identity matters. -/
structure RespUsage where
  prompt_tokens : Nat
  completion_tokens : Nat
  total_tokens : Nat
deriving DecidableEq, Repr

/-- One element of `response_object["choices"]` of a
`TextCompletionResponse`: the fields the converter reads. -/
structure TextChoice where
  text : String
  finish_reason : String
deriving DecidableEq, Repr

/-- A `TextCompletionResponse` vendor payload: `choices` is always present;
`usage`, `id` and `model` are tested with `in` before being copied, hence
optional. -/
structure TextCompletionResponse where
  choices : List TextChoice
  usage : Option RespUsage
  id : Option String
  model : Option String
deriving DecidableEq, Repr

/-- The shared `ModelResponse` envelope being written into:
`choices`, `usage`, `id`, `model`, and the
`_hidden_params["original_response"]` slot the converter fills. -/
structure ModelResponse where
  choices : List RespChoice
  usage : Option RespUsage
  id : String
  model : Option String
  original_response : Option TextCompletionResponse
deriving DecidableEq, Repr

/-- Default used only as the `List.getD` fallback in theorem statements. -/
def dummyRespChoice : RespChoice :=
  { finish_reason := "", index := 0, message := { content := "", role := "" } }

/-- Default used only as the `List.getD` fallback in theorem statements. -/
def dummyTextChoice : TextChoice := { text := "", finish_reason := "" }

/-- The `for idx, choice in enumerate(response_object["choices"])` loop
(lines 469-477): each text choice becomes a chat `Choices` with the running
index, role `"assistant"` and the choice's text as content. -/
def convertChoices : Nat → List TextChoice → List RespChoice
  | _, [] => []
  | idx, c :: rest =>
    { finish_reason := c.finish_reason, index := idx,
      message := { content := c.text, role := "assistant" } }
      :: convertChoices (idx + 1) rest

/-- `OpenAITextCompletionConfig.convert_to_chat_model_response_object`
(lines 459-494): raises `ValueError("Error in response object format")`
when either argument is `None`; otherwise rebuilds `choices`, copies
`usage`, `id` and `model` when present in the response object, and stores
the original response in `_hidden_params`. -/
def convert_to_chat_model_response_object
    (response_object : Option TextCompletionResponse)
    (model_response_object : Option ModelResponse) :
    Except String ModelResponse :=
  match response_object, model_response_object with
  | some ro, some mro =>
    .ok { choices := convertChoices 0 ro.choices,
          usage := match ro.usage with | some u => some u | none => mro.usage,
          id := match ro.id with | some i => i | none => mro.id,
          model := match ro.model with | some m => some m | none => mro.model,
          original_response := some ro }
  | _, _ => .error "Error in response object format"

/-! ## Supporting lemmas -/

/-- `filterMap` of the `get_config` filter: membership characterization. -/
lemma mem_optFilter {V : Type} (l : List (String × Option V)) (k : String) (v : V) :
    (k, v) ∈ l.filterMap
        (fun p => match p.2 with | some w => some (p.1, w) | none => none) ↔
      (k, some v) ∈ l := by
  induction l with
  | nil => simp
  | cons p rest ih =>
    obtain ⟨pk, pv⟩ := p
    cases pv with
    | none => simp [List.filterMap_cons, ih]
    | some w => simp [List.filterMap_cons, ih]

/-! ## C10 -/

/-- C10: for every model string, `"response_format"` is in
`OpenAIConfig.get_supported_openai_params(model)` iff the model is neither
`"gpt-3.5-turbo-16k"` nor `"gpt-4"`, while every base parameter is in the
returned list for every model. -/
theorem get_supported_openai_params_response_format (model : String) (p : String)
    (hp : p ∈ OpenAIConfig.base_params) :
    ("response_format" ∈ OpenAIConfig.get_supported_openai_params model ↔
      (model ≠ "gpt-3.5-turbo-16k" ∧ model ≠ "gpt-4")) ∧
    p ∈ OpenAIConfig.get_supported_openai_params model := by
  constructor
  · constructor
    · intro hmem
      by_contra hc
      rw [OpenAIConfig.get_supported_openai_params, if_neg hc, List.append_nil] at hmem
      revert hmem
      decide
    · intro hc
      rw [OpenAIConfig.get_supported_openai_params, if_pos hc]
      simp
  · rw [OpenAIConfig.get_supported_openai_params]
    exact List.mem_append_left _ hp

/-- Witness for C10 at the concrete model `"gpt-4"` and base parameter
`"temperature"`. -/
theorem get_supported_openai_params_response_format_witness :
    "temperature" ∈ OpenAIConfig.base_params ∧
    (("response_format" ∈ OpenAIConfig.get_supported_openai_params "gpt-4" ↔
      ("gpt-4" ≠ "gpt-3.5-turbo-16k" ∧ "gpt-4" ≠ "gpt-4")) ∧
     "temperature" ∈ OpenAIConfig.get_supported_openai_params "gpt-4") :=
  ⟨by decide, get_supported_openai_params_response_format "gpt-4" "temperature" (by decide)⟩

/-! ## C7 -/

/-- C7 counterexample: constructing `MistralConfig(temperature=5)` and then
constructing `MistralConfig()` leaves the second construction observing the
first one's argument through `get_config` — the class-level state is shared
and mutated, refuting the claim that construction leaves shared state
unchanged. -/
theorem mistral_init_shared_state_cx :
    MistralConfig.get_config
        (MistralConfig.init
          (MistralConfig.init (MistralConfig.initialState Nat)
            (some 5) none none none none none none none)
          none none none none none none none none) ≠
      MistralConfig.get_config
        (MistralConfig.init (MistralConfig.initialState Nat)
          none none none none none none none none) := by
  decide

/-- C7 (amended): constructing a `MistralConfig` with non-`None` arguments
writes them onto class-level state shared between instances, so a later
construction (with all arguments `None`) observes the earlier arguments via
`get_config`. -/
theorem mistral_init_mutates_class_state (V : Type) (v : V) :
    MistralConfig.get_config
        (MistralConfig.init
          (MistralConfig.init (MistralConfig.initialState V)
            (some v) none none none none none none none)
          none none none none none none none none) = [("temperature", v)] := rfl

/-! ## C8 -/

/-- C8: every declared parameter field of `MistralConfig` defaults to
`None`; `get_config` returns exactly the (non-dunder, non-function) class
attributes whose value is not `None`; a field never set is absent from the
result. -/
theorem mistral_get_config_exact (V : Type) (s : MistralClassState V) :
    MistralConfig.initialState V =
      { temperature := none, top_p := none, max_tokens := none, tools := none,
        tool_choice := none, random_seed := none, safe_prompt := none,
        response_format := none } ∧
    (∀ (k : String) (v : V),
      (k, v) ∈ MistralConfig.get_config s ↔ (k, some v) ∈ MistralConfig.classDict s) ∧
    (s.temperature = none →
      "temperature" ∉ (MistralConfig.get_config s).map Prod.fst) := by
  refine ⟨rfl, fun k v => mem_optFilter _ k v, fun h hmem => ?_⟩
  rw [List.mem_map] at hmem
  obtain ⟨⟨k, v⟩, hkv, hfst⟩ := hmem
  simp only at hfst
  subst hfst
  unfold MistralConfig.get_config at hkv
  rw [mem_optFilter] at hkv
  simp [MistralConfig.classDict, h] at hkv

/-- Witness for C8 at the initial class state. -/
theorem mistral_get_config_exact_witness :
    (MistralConfig.initialState Nat).temperature = none ∧
    "temperature" ∉
      (MistralConfig.get_config (MistralConfig.initialState Nat)).map Prod.fst :=
  ⟨rfl, (mistral_get_config_exact Nat (MistralConfig.initialState Nat)).2.2 rfl⟩

/-! ## C1: properties of the reformatting rewrite -/

/-- The reformatted list of a non-empty list keeps its head. -/
lemma insert_alternating_cons (m : Msg) (rest : List Msg) :
    ∃ t, insert_alternating (m :: rest) = m :: t := by
  cases rest with
  | nil => exact ⟨[], rfl⟩
  | cons m2 rs =>
    rw [insert_alternating]
    cases hb : (m.role == m2.role) with
    | false => simp [hb]
    | true => simp [hb]

/-- The inserted blank message never shares the role it is inserted next to. -/
lemma filler_for_role_ne (r : String) : (filler_for r).role ≠ r := by
  unfold filler_for
  by_cases h : r = "user"
  · subst h; simp
  · simp [h]
    intro hc
    exact h hc.symm

/-- The shape of the inserted blank message: empty content, user or
assistant role. -/
lemma filler_for_shape (r : String) :
    (filler_for r).content = "" ∧
      ((filler_for r).role = "user" ∨ (filler_for r).role = "assistant") := by
  unfold filler_for
  by_cases h : r = "user" <;> simp [h]

/-- No two adjacent messages of the reformatted list share a role. -/
lemma insert_alternating_chain (l : List Msg) :
    List.Chain' (fun a b => a.role ≠ b.role) (insert_alternating l) := by
  induction l with
  | nil => simp [insert_alternating]
  | cons m rest ih =>
    cases rest with
    | nil => simp [insert_alternating]
    | cons m2 rs =>
      obtain ⟨t, ht⟩ := insert_alternating_cons m2 rs
      rw [insert_alternating]
      cases hb : (m.role == m2.role) with
      | false =>
        simp only [hb, Bool.false_eq_true, if_false]
        rw [ht] at ih ⊢
        exact List.chain'_cons.2 ⟨by simpa using hb, ih⟩
      | true =>
        simp only [hb, if_true]
        rw [ht] at ih ⊢
        have hm2 : m.role = m2.role := by simpa using hb
        refine List.chain'_cons.2 ⟨?_, List.chain'_cons.2 ⟨?_, ih⟩⟩
        · exact fun hc => filler_for_role_ne m.role hc.symm
        · rw [← hm2]
          exact filler_for_role_ne m.role

/-- The original messages appear unchanged, in order, in the reformatted
list. -/
lemma sublist_insert_alternating (l : List Msg) :
    l.Sublist (insert_alternating l) := by
  induction l with
  | nil => simp [insert_alternating]
  | cons m rest ih =>
    cases rest with
    | nil => simp [insert_alternating]
    | cons m2 rs =>
      rw [insert_alternating]
      cases hb : (m.role == m2.role) with
      | false =>
        simp only [hb, Bool.false_eq_true, if_false]
        exact List.Sublist.cons₂ m ih
      | true =>
        simp only [hb, if_true]
        exact List.Sublist.cons₂ m (List.Sublist.cons _ ih)

/-- Every message of the reformatted list is an original message or an
inserted blank user/assistant message. -/
lemma mem_insert_alternating (l : List Msg) (x : Msg) (hx : x ∈ insert_alternating l) :
    x ∈ l ∨ (x.content = "" ∧ (x.role = "user" ∨ x.role = "assistant")) := by
  induction l generalizing x with
  | nil => simp [insert_alternating] at hx
  | cons m rest ih =>
    cases rest with
    | nil =>
      simp [insert_alternating] at hx
      subst hx
      exact Or.inl (List.mem_singleton.2 rfl)
    | cons m2 rs =>
      rw [insert_alternating] at hx
      cases hb : (m.role == m2.role) with
      | false =>
        simp only [hb, Bool.false_eq_true, if_false, List.mem_cons] at hx
        rcases hx with rfl | hx
        · exact Or.inl (List.mem_cons_self _ _)
        · rcases ih x hx with h | h
          · exact Or.inl (List.mem_cons_of_mem _ h)
          · exact Or.inr h
      | true =>
        simp only [hb, if_true, List.mem_cons] at hx
        rcases hx with rfl | rfl | hx
        · exact Or.inl (List.mem_cons_self _ _)
        · exact Or.inr (filler_for_shape m.role)
        · rcases ih x hx with h | h
          · exact Or.inl (List.mem_cons_of_mem _ h)
          · exact Or.inr h

/-- C1 counterexample: on the empty message list the reformatting code
produces no rewritten list at all — `messages[-1]` raises `IndexError` —
so the claim's "for every input message list" fails at `[]`. -/
theorem reformat_messages_nil_no_rewrite : reformat_messages [] = none := rfl

/-- C1 (amended): for every NON-EMPTY input message list, the rewrite
succeeds and the rewritten list has no two adjacent messages with the same
role, contains every original message unchanged and in its original order,
and every other (inserted) message has content `""` and role `"user"` or
`"assistant"`. -/
theorem reformat_messages_alternates (messages : List Msg) (h : messages ≠ []) :
    ∃ l, reformat_messages messages = some l ∧
      List.Chain' (fun a b => a.role ≠ b.role) l ∧
      messages.Sublist l ∧
      ∀ x ∈ l, x ∈ messages ∨ (x.content = "" ∧ (x.role = "user" ∨ x.role = "assistant")) := by
  match messages, h with
  | m :: rest, _ =>
    exact ⟨insert_alternating (m :: rest), rfl, insert_alternating_chain _,
      sublist_insert_alternating _, fun x hx => mem_insert_alternating _ x hx⟩

/-- Witness for C1 (amended) at a concrete two-user-message list. -/
theorem reformat_messages_alternates_witness :
    ([⟨"user", "a"⟩, ⟨"user", "b"⟩] : List Msg) ≠ [] ∧
    ∃ l, reformat_messages [⟨"user", "a"⟩, ⟨"user", "b"⟩] = some l ∧
      List.Chain' (fun a b => a.role ≠ b.role) l ∧
      ([⟨"user", "a"⟩, ⟨"user", "b"⟩] : List Msg).Sublist l ∧
      ∀ x ∈ l, x ∈ ([⟨"user", "a"⟩, ⟨"user", "b"⟩] : List Msg) ∨
        (x.content = "" ∧ (x.role = "user" ∨ x.role = "assistant")) :=
  ⟨by decide, reformat_messages_alternates _ (by decide)⟩

/-! ## C3, C4, C9, C2: the retry loop and error normalization -/

/-- The loop makes at most `fuel` further provider calls. -/
lemma completion_loop_calls_le {ρ : Type} (provider : List Msg → CallOutcome ρ)
    (format_exc : Exc → String) :
    ∀ (fuel : Nat) (messages : List Msg) (calls : Nat),
      (completion_loop provider format_exc fuel messages calls).2 ≤ calls + fuel := by
  intro fuel
  induction fuel with
  | zero => intro messages calls; simp [completion_loop]
  | succ k ih =>
    intro messages calls
    cases hp : provider messages with
    | ok r => simp [completion_loop, hp]
    | err e =>
      simp only [completion_loop, hp]
      by_cases h1 : matches_alternating e = true
      · rw [if_pos h1]
        cases hr : reformat_messages messages with
        | some nm =>
          have := ih nm (calls + 1)
          exact this.trans (by omega)
        | none => simp
      · rw [if_neg h1]
        by_cases h2 : matches_last_user e = true
        · rw [if_pos h2]
          have := ih (messages ++ [blank_user]) (calls + 1)
          exact this.trans (by omega)
        · rw [if_neg h2]; simp

/-- C3: the request is attempted at most twice in total per invocation of
`completion` (synchronous non-streaming path): the retry after a matched
reformatting happens exactly once, and a second matched failure is never
followed by a third attempt. -/
theorem completion_attempts_le_two (ρ : Type) (provider : List Msg → CallOutcome ρ)
    (format_exc : Exc → String) (model : Option String)
    (messages : Option (List Msg)) :
    (completion provider format_exc model messages).2 ≤ 2 := by
  unfold completion
  cases model with
  | none => simp
  | some m =>
    cases messages with
    | none => simp
    | some msgs => simpa using completion_loop_calls_le provider format_exc 2 msgs 0

/-- One loop iteration whose provider call fails with an unmatched error:
the exception is re-raised (normalized by the outer handlers), with no
further attempt. -/
lemma completion_loop_unmatched {ρ : Type} (provider : List Msg → CallOutcome ρ)
    (format_exc : Exc → String) (fuel : Nat) (messages : List Msg)
    (calls : Nat) (e : Exc)
    (hcall : provider messages = .err e)
    (h1 : matches_alternating e = false) (h2 : matches_last_user e = false) :
    completion_loop provider format_exc (fuel + 1) messages calls =
      (.raised (normalizeError format_exc e), calls + 1) := by
  simp only [completion_loop, hcall]
  rw [if_neg (by simp [h1]), if_neg (by simp [h2])]

/-- C4: an exception whose text matches none of the three vendor phrases
triggers no reformatting and no retry: the provider is called exactly once
and the exception is re-raised (normalized by the outer handlers). -/
theorem completion_unmatched_error_reraised (ρ : Type)
    (provider : List Msg → CallOutcome ρ) (format_exc : Exc → String)
    (model : String) (messages : List Msg) (e : Exc)
    (hcall : provider messages = .err e)
    (h1 : matches_alternating e = false) (h2 : matches_last_user e = false) :
    completion provider format_exc (some model) (some messages) =
      (.raised (normalizeError format_exc e), 1) := by
  unfold completion
  exact completion_loop_unmatched provider format_exc 1 messages 0 e hcall h1 h2

/-- Witness for C4: a provider failing with text matching no phrase. -/
theorem completion_unmatched_error_reraised_witness :
    (fun _ : List Msg => CallOutcome.err (ρ := Nat) (.other "boom" (some 404)))
        [⟨"user", "hi"⟩] = .err (.other "boom" (some 404)) ∧
    matches_alternating (.other "boom" (some 404)) = false ∧
    matches_last_user (.other "boom" (some 404)) = false ∧
    completion (fun _ : List Msg => CallOutcome.err (ρ := Nat) (.other "boom" (some 404)))
        (fun _ => "tb") (some "gpt-4o") (some [⟨"user", "hi"⟩]) =
      (.raised (normalizeError (fun _ => "tb") (.other "boom" (some 404))), 1) :=
  ⟨rfl, by decide, by decide,
    completion_unmatched_error_reraised Nat _ _ "gpt-4o" [⟨"user", "hi"⟩]
      (.other "boom" (some 404)) rfl (by decide) (by decide)⟩

/-- A successful reformatting yields a non-empty list. -/
lemma reformat_messages_ne_nil {l l' : List Msg}
    (h : reformat_messages l = some l') : l' ≠ [] := by
  cases l with
  | nil => simp [reformat_messages] at h
  | cons m rest =>
    rw [reformat_messages] at h
    obtain ⟨t, ht⟩ := insert_alternating_cons m rest
    cases h
    simp [ht]

/-- A matched rewrite yields a non-empty list. -/
lemma matched_rewrite_ne_nil {e : Exc} {l l' : List Msg}
    (h : matched_rewrite e l = some l') : l' ≠ [] := by
  unfold matched_rewrite at h
  by_cases h1 : matches_alternating e = true
  · rw [if_pos h1] at h
    exact reformat_messages_ne_nil h
  · rw [if_neg h1] at h
    by_cases h2 : matches_last_user e = true
    · rw [if_pos h2] at h
      cases h
      simp
    · rw [if_neg h2] at h
      cases h

/-- One loop iteration whose provider call fails with a matched error
continues with the rewritten message list. -/
lemma completion_loop_first_matched {ρ : Type} (provider : List Msg → CallOutcome ρ)
    (format_exc : Exc → String) (fuel : Nat) (messages messages' : List Msg)
    (calls : Nat) (e : Exc)
    (hcall : provider messages = .err e)
    (hrw : matched_rewrite e messages = some messages') :
    completion_loop provider format_exc (fuel + 1) messages calls =
      completion_loop provider format_exc fuel messages' (calls + 1) := by
  simp only [completion_loop, hcall]
  unfold matched_rewrite at hrw
  by_cases h1 : matches_alternating e = true
  · rw [if_pos h1] at hrw
    rw [if_pos h1, hrw]
  · rw [if_neg h1] at hrw
    by_cases h2 : matches_last_user e = true
    · rw [if_pos h2] at hrw
      cases hrw
      rw [if_neg h1, if_pos h2]
    · rw [if_neg h2] at hrw
      cases hrw

/-- The last loop iteration, on a non-empty message list whose call fails
with a matched error: the loop is exhausted without returning or raising. -/
lemma completion_loop_one_matched {ρ : Type} (provider : List Msg → CallOutcome ρ)
    (format_exc : Exc → String) (messages' : List Msg) (e2 : Exc) (calls : Nat)
    (hne : messages' ≠ [])
    (hcall2 : provider messages' = .err e2)
    (hm2 : matches_alternating e2 = true ∨ matches_last_user e2 = true) :
    completion_loop provider format_exc 1 messages' calls = (.noResponse, calls + 1) := by
  obtain ⟨m, rest, rfl⟩ : ∃ m rest, messages' = m :: rest := by
    cases messages' with
    | nil => exact absurd rfl hne
    | cons m rest => exact ⟨m, rest, rfl⟩
  have hrw : ∃ l', matched_rewrite e2 (m :: rest) = some l' := by
    unfold matched_rewrite
    by_cases ha : matches_alternating e2 = true
    · rw [if_pos ha, reformat_messages]
      exact ⟨_, rfl⟩
    · rw [if_neg ha, if_pos (hm2.resolve_left ha)]
      exact ⟨_, rfl⟩
  obtain ⟨l', hl'⟩ := hrw
  have step := completion_loop_first_matched provider format_exc 0 (m :: rest) l'
    calls e2 hcall2 hl'
  rw [step]
  rfl

/-- C9: when the first attempt fails with a matched error, the rewrite
produces a new message list (so a second attempt occurs), and the second
attempt also fails with a matched error, `completion` raises nothing and
returns `None`, having made exactly the two calls. -/
theorem completion_double_matched_failure_returns_none (ρ : Type)
    (provider : List Msg → CallOutcome ρ) (format_exc : Exc → String)
    (model : String) (messages messages' : List Msg) (e1 e2 : Exc)
    (hcall1 : provider messages = .err e1)
    (hrw : matched_rewrite e1 messages = some messages')
    (hcall2 : provider messages' = .err e2)
    (hm2 : matches_alternating e2 = true ∨ matches_last_user e2 = true) :
    completion provider format_exc (some model) (some messages) = (.noResponse, 2) := by
  have hne : messages' ≠ [] := matched_rewrite_ne_nil hrw
  have step1 := completion_loop_first_matched provider format_exc 1 messages messages'
    0 e1 hcall1 hrw
  have step2 := completion_loop_one_matched provider format_exc messages' e2 1
    hne hcall2 hm2
  unfold completion
  exact step1.trans step2

/-- Witness for C9: a provider that always fails with the first alternating
phrase, on a one-message list. -/
theorem completion_double_matched_failure_returns_none_witness :
    (fun _ : List Msg => CallOutcome.err (ρ := Nat) (.other alternate_phrase_1 none))
        [⟨"user", "hi"⟩] = .err (.other alternate_phrase_1 none) ∧
    matched_rewrite (.other alternate_phrase_1 none) [⟨"user", "hi"⟩] =
      some [⟨"user", "hi"⟩] ∧
    (matches_alternating (.other alternate_phrase_1 none) = true ∨
      matches_last_user (.other alternate_phrase_1 none) = true) ∧
    completion (fun _ : List Msg => CallOutcome.err (ρ := Nat) (.other alternate_phrase_1 none))
        (fun _ => "tb") (some "mistral-tiny") (some [⟨"user", "hi"⟩]) =
      (.noResponse, 2) :=
  ⟨rfl, by decide, Or.inl (by decide),
    completion_double_matched_failure_returns_none Nat _ _ "mistral-tiny"
      [⟨"user", "hi"⟩] [⟨"user", "hi"⟩] (.other alternate_phrase_1 none)
      (.other alternate_phrase_1 none) rfl (by decide) rfl (Or.inl (by decide))⟩

/-- `normalizeError` always yields an `OpenAIError`. -/
lemma normalizeError_is_openAIErr (format_exc : Exc → String) (e : Exc) :
    ∃ c m, normalizeError format_exc e = .openAIErr c m := by
  cases e with
  | openAIErr c m => exact ⟨c, m, rfl⟩
  | other t sc =>
    cases sc with
    | some c => exact ⟨c, t, rfl⟩
    | none => exact ⟨500, format_exc (.other t none), rfl⟩

/-- Every exception raised out of the retry loop is an `OpenAIError`. -/
lemma completion_loop_raised_shape {ρ : Type} (provider : List Msg → CallOutcome ρ)
    (format_exc : Exc → String) :
    ∀ (fuel : Nat) (messages : List Msg) (calls : Nat) (e' : Exc) (n : Nat),
      completion_loop provider format_exc fuel messages calls = (.raised e', n) →
        ∃ c m, e' = Exc.openAIErr c m := by
  intro fuel
  induction fuel with
  | zero =>
    intro messages calls e' n h
    simp [completion_loop] at h
  | succ k ih =>
    intro messages calls e' n h
    cases hp : provider messages with
    | ok r => simp [completion_loop, hp] at h
    | err e =>
      simp only [completion_loop, hp] at h
      by_cases h1 : matches_alternating e = true
      · rw [if_pos h1] at h
        cases hr : reformat_messages messages with
        | some nm =>
          rw [hr] at h
          exact ih nm (calls + 1) e' n h
        | none =>
          rw [hr] at h
          simp only [Prod.mk.injEq, CompletionResult.raised.injEq] at h
          obtain ⟨rfl, -⟩ := h
          exact normalizeError_is_openAIErr format_exc index_error
      · rw [if_neg h1] at h
        by_cases h2 : matches_last_user e = true
        · rw [if_pos h2] at h
          exact ih _ (calls + 1) e' n h
        · rw [if_neg h2] at h
          simp only [Prod.mk.injEq, CompletionResult.raised.injEq] at h
          obtain ⟨rfl, -⟩ := h
          exact normalizeError_is_openAIErr format_exc e

/-- C2: on the synchronous non-streaming path, every exception raised out of
`completion` is an `OpenAIError` carrying a status code and a message; the
outer handlers map an underlying exception with a `status_code` attribute to
an `OpenAIError` with that status code and its string as message (an
`OpenAIError` is re-raised with its own code and message unchanged), and any
other exception to an `OpenAIError` with status code 500 (its message being
the formatted traceback). -/
theorem completion_errors_normalized :
    (∀ (ρ : Type) (provider : List Msg → CallOutcome ρ) (format_exc : Exc → String)
        (model : Option String) (messages : Option (List Msg)) (e' : Exc) (n : Nat),
      completion provider format_exc model messages = (.raised e', n) →
        ∃ c m, e' = Exc.openAIErr c m) ∧
    (∀ (format_exc : Exc → String) (t : String) (c : Nat),
      normalizeError format_exc (.other t (some c)) = .openAIErr c t) ∧
    (∀ (format_exc : Exc → String) (c : Nat) (m : String),
      normalizeError format_exc (.openAIErr c m) = .openAIErr c m) ∧
    (∀ (format_exc : Exc → String) (t : String),
      normalizeError format_exc (.other t none) =
        .openAIErr 500 (format_exc (.other t none))) := by
  refine ⟨?_, fun _ _ _ => rfl, fun _ _ _ => rfl, fun _ _ => rfl⟩
  intro ρ provider format_exc model messages e' n h
  unfold completion at h
  cases model with
  | none =>
    simp only [Prod.mk.injEq, CompletionResult.raised.injEq] at h
    obtain ⟨rfl, -⟩ := h
    exact ⟨422, "Missing model or messages", rfl⟩
  | some m =>
    cases messages with
    | none =>
      simp only [Prod.mk.injEq, CompletionResult.raised.injEq] at h
      obtain ⟨rfl, -⟩ := h
      exact ⟨422, "Missing model or messages", rfl⟩
    | some msgs => exact completion_loop_raised_shape provider format_exc 2 msgs 0 e' n h

/-- Witness for C2: a provider failing with a status-coded, unmatched
exception yields a raised `OpenAIError`. -/
theorem completion_errors_normalized_witness :
    completion (fun _ : List Msg => CallOutcome.err (ρ := Nat) (.other "boom" (some 404)))
        (fun _ => "tb") (some "gpt-4o") (some []) =
      (.raised (.openAIErr 404 "boom"), 1) ∧
    ∃ c m, Exc.openAIErr 404 "boom" = Exc.openAIErr c m :=
  ⟨by decide,
    completion_errors_normalized.1 Nat
      (fun _ => CallOutcome.err (.other "boom" (some 404))) (fun _ => "tb")
      (some "gpt-4o") (some []) (.openAIErr 404 "boom") 1 (by decide)⟩

/-! ## C5: `OpenAIConfig.map_openai_params` -/

/-- Lookup misses a key absent from the key list. -/
lemma dictGet_eq_none {V : Type} (d : List (String × V)) (k : String)
    (h : k ∉ d.map Prod.fst) : dictGet d k = none := by
  induction d with
  | nil => rfl
  | cons p rest ih =>
    simp only [List.map_cons, List.mem_cons, not_or] at h
    obtain ⟨h1, h2⟩ := h
    have hb : (p.1 == k) = false := by
      simp only [beq_eq_false_iff_ne, ne_eq]
      exact fun hc => h1 hc.symm
    rw [dictGet, if_neg (by simp [hb])]
    exact ih h2

/-- Lookup after the in-place overwrite of every entry keyed `k`. -/
lemma dictGet_overwrite {V : Type} (d : List (String × V)) (k : String) (v : V) :
    dictGet (d.map (fun p => if p.1 == k then (p.1, v) else p)) k =
      if d.any (fun p => p.1 == k) then some v else none := by
  induction d with
  | nil => rfl
  | cons p rest ih =>
    by_cases hp : (p.1 == k) = true
    · simp [dictGet, hp, ih]
    · simp only [List.map_cons, List.any_cons, hp, if_neg, Bool.false_or,
        if_false]
      rw [dictGet, if_neg (by simp [hp])]
      exact ih

/-- Lookup of a freshly appended entry whose key was absent. -/
lemma dictGet_append_single {V : Type} (d : List (String × V)) (k : String) (v : V)
    (h : d.any (fun p => p.1 == k) = false) :
    dictGet (d ++ [(k, v)]) k = some v := by
  induction d with
  | nil => simp [dictGet]
  | cons p rest ih =>
    simp only [List.any_cons, Bool.or_eq_false_iff] at h
    obtain ⟨h1, h2⟩ := h
    rw [List.cons_append, dictGet, if_neg (by simp [h1])]
    exact ih h2

/-- `d[k] = v` then lookup of `k` gives `v`. -/
lemma dictGet_dictSet_self {V : Type} (d : List (String × V)) (k : String) (v : V) :
    dictGet (dictSet d k v) k = some v := by
  unfold dictSet
  by_cases hany : d.any (fun p => p.1 == k) = true
  · rw [if_pos hany, dictGet_overwrite, if_pos hany]
  · rw [if_neg hany]
    exact dictGet_append_single d k v (Bool.eq_false_iff.mpr hany)

/-- `d[k] = v` leaves the lookup of every other key unchanged. -/
lemma dictGet_dictSet_ne {V : Type} (d : List (String × V)) (k k' : String) (v : V)
    (hne : k ≠ k') :
    dictGet (dictSet d k v) k' = dictGet d k' := by
  unfold dictSet
  by_cases hany : d.any (fun p => p.1 == k) = true
  · rw [if_pos hany]
    clear hany
    induction d with
    | nil => rfl
    | cons p rest ih =>
      by_cases hp : (p.1 == k) = true
      · have hp1 : p.1 = k := by simpa using hp
        have hb : (p.1 == k') = false := by
          simp only [beq_eq_false_iff_ne, ne_eq, hp1]
          exact hne
        simp only [List.map_cons, hp, if_pos]
        rw [dictGet, if_neg (by simp [hb]), dictGet, if_neg (by simp [hb])]
        exact ih
      · simp only [List.map_cons, hp, if_neg, Bool.false_eq_true,
          not_false_eq_true]
        by_cases hq : (p.1 == k') = true
        · rw [dictGet, if_pos (by simp [hq]), dictGet, if_pos (by simp [hq])]
        · rw [dictGet, if_neg (by simp [hq]), dictGet, if_neg (by simp [hq])]
          exact ih
  · rw [if_neg hany]
    clear hany
    induction d with
    | nil => simp [dictGet, hne]
    | cons p rest ih =>
      by_cases hq : (p.1 == k') = true
      · rw [List.cons_append, dictGet, if_pos (by simp [hq]), dictGet,
          if_pos (by simp [hq])]
      · rw [List.cons_append, dictGet, if_neg (by simp [hq]), dictGet,
          if_neg (by simp [hq])]
        exact ih

/-- C5 counterexample: with `non_default_params = {"temperature": 2}` and
`optional_params = {"temperature": 1}`, the prior entry
`("temperature", 1)` of `optional_params` is NOT contained in the returned
dict — it is overwritten — refuting "contains exactly the prior entries of
optional_params plus ...". -/
theorem map_openai_params_overwrite_cx :
    ("temperature", 1) ∈ [(("temperature" : String), (1 : Nat))] ∧
    ("temperature", 1) ∉
      OpenAIConfig.map_openai_params [(("temperature" : String), (2 : Nat))]
        [("temperature", 1)] "gpt-4o" := by
  decide

/-- C5 (amended): `map_openai_params` is a pure allow-list with
`non_default_params` taking precedence on overlapping keys: a key maps to
its `non_default_params` value if that key is supported and present there,
and to its prior `optional_params` value otherwise; unsupported keys of
`non_default_params` are never added, and values are copied unchanged. -/
theorem map_openai_params_lookup {V : Type} (ndp op : List (String × V))
    (model k : String) (hn : (ndp.map Prod.fst).Nodup) :
    dictGet (OpenAIConfig.map_openai_params ndp op model) k =
      if (OpenAIConfig.get_supported_openai_params model).contains k &&
          (dictGet ndp k).isSome then
        dictGet ndp k
      else dictGet op k := by
  induction ndp generalizing op with
  | nil => simp [OpenAIConfig.map_openai_params, dictGet]
  | cons p rest ih =>
    obtain ⟨pk, pv⟩ := p
    simp only [List.map_cons, List.nodup_cons] at hn
    obtain ⟨hpk, hrest⟩ := hn
    have unf : OpenAIConfig.map_openai_params ((pk, pv) :: rest) op model =
        OpenAIConfig.map_openai_params rest
          (if (OpenAIConfig.get_supported_openai_params model).contains pk then
            dictSet op pk pv
          else op) model := rfl
    rw [unf, ih _ hrest]
    by_cases hpkk : pk = k
    · subst hpkk
      have hhead : dictGet ((pk, pv) :: rest) pk = some pv := by
        rw [dictGet, if_pos (by simp)]
      have hnone : dictGet rest pk = none := dictGet_eq_none rest pk hpk
      rw [hhead, hnone]
      by_cases hc : (OpenAIConfig.get_supported_openai_params model).contains pk = true
      · have hm : pk ∈ OpenAIConfig.get_supported_openai_params model := by
          simpa using hc
        simp [hm, dictGet_dictSet_self]
      · have hm : pk ∉ OpenAIConfig.get_supported_openai_params model := by
          simpa using hc
        simp [hm]
    · have htail : dictGet ((pk, pv) :: rest) k = dictGet rest k := by
        rw [dictGet, if_neg (by simp [beq_eq_false_iff_ne, hpkk])]
      rw [htail]
      by_cases hc : (OpenAIConfig.get_supported_openai_params model).contains pk = true
      · rw [if_pos hc, dictGet_dictSet_ne op pk k pv hpkk]
      · rw [if_neg hc]

/-- Witness for C5 (amended) on concrete dicts with an overlapping
supported key, an unsupported key, and a fresh supported key. -/
theorem map_openai_params_lookup_witness :
    ((([(("temperature" : String), (2 : Nat)), ("not_a_param", 9)]).map
        Prod.fst).Nodup) ∧
    dictGet
        (OpenAIConfig.map_openai_params
          [(("temperature" : String), (2 : Nat)), ("not_a_param", 9)]
          [("temperature", 1), ("stop", 7)] "gpt-4o") "temperature" =
      (if (OpenAIConfig.get_supported_openai_params "gpt-4o").contains "temperature" &&
          (dictGet [(("temperature" : String), (2 : Nat)), ("not_a_param", 9)]
            "temperature").isSome then
        dictGet [(("temperature" : String), (2 : Nat)), ("not_a_param", 9)]
          "temperature"
      else dictGet [(("temperature" : String), (1 : Nat)), ("stop", 7)]
        "temperature") :=
  ⟨by decide,
    map_openai_params_lookup [("temperature", 2), ("not_a_param", 9)]
      [("temperature", 1), ("stop", 7)] "gpt-4o" "temperature" (by decide)⟩

/-! ## C6: `convert_to_chat_model_response_object` -/

/-- The converted choice list has the length of the vendor choice list. -/
lemma convertChoices_length (start : Nat) (l : List TextChoice) :
    (convertChoices start l).length = l.length := by
  induction l generalizing start with
  | nil => rfl
  | cons c rest ih => simp [convertChoices, ih]

/-- Pointwise description of the converted choice list. -/
lemma convertChoices_getD (l : List TextChoice) :
    ∀ (start i : Nat), i < l.length →
      (convertChoices start l).getD i dummyRespChoice =
        { finish_reason := (l.getD i dummyTextChoice).finish_reason,
          index := start + i,
          message := { content := (l.getD i dummyTextChoice).text,
                       role := "assistant" } } := by
  induction l with
  | nil => intro start i hi; simp at hi
  | cons c rest ih =>
    intro start i hi
    cases i with
    | zero => simp [convertChoices]
    | succ j =>
      have hj : j < rest.length := by simpa using hi
      simp only [convertChoices, List.getD_cons_succ]
      rw [ih (start + 1) j hj]
      have harith : start + 1 + j = start + (j + 1) := by omega
      rw [harith]

/-- C6: the converter raises when either argument is `None`; otherwise the
`i`-th output choice has index `i`, role `"assistant"`, the vendor choice's
text as content and its finish reason, and `usage`, `id` and `model` are
copied from the response object whenever present there. -/
theorem convert_to_chat_model_response_object_spec :
    (∀ m, convert_to_chat_model_response_object none m =
      .error "Error in response object format") ∧
    (∀ r, convert_to_chat_model_response_object r none =
      .error "Error in response object format") ∧
    (∀ (ro : TextCompletionResponse) (mro out : ModelResponse),
      convert_to_chat_model_response_object (some ro) (some mro) = .ok out →
        out.choices.length = ro.choices.length ∧
        out.usage = (match ro.usage with | some u => some u | none => mro.usage) ∧
        out.id = ro.id.getD mro.id ∧
        out.model = (match ro.model with | some m => some m | none => mro.model) ∧
        out.original_response = some ro) ∧
    (∀ (ro : TextCompletionResponse) (mro out : ModelResponse) (i : Nat),
      convert_to_chat_model_response_object (some ro) (some mro) = .ok out →
      i < ro.choices.length →
        (out.choices.getD i dummyRespChoice).index = i ∧
        (out.choices.getD i dummyRespChoice).message.role = "assistant" ∧
        (out.choices.getD i dummyRespChoice).message.content =
          (ro.choices.getD i dummyTextChoice).text ∧
        (out.choices.getD i dummyRespChoice).finish_reason =
          (ro.choices.getD i dummyTextChoice).finish_reason) := by
  refine ⟨fun m => by cases m <;> rfl, fun r => by cases r <;> rfl, ?_, ?_⟩
  · intro ro mro out h
    simp only [convert_to_chat_model_response_object, Except.ok.injEq] at h
    subst h
    refine ⟨convertChoices_length 0 ro.choices, rfl, ?_, rfl, rfl⟩
    cases ro.id <;> rfl
  · intro ro mro out i h hi
    simp only [convert_to_chat_model_response_object, Except.ok.injEq] at h
    subst h
    have := convertChoices_getD ro.choices 0 i hi
    rw [Nat.zero_add] at this
    rw [this]
    exact ⟨rfl, rfl, rfl, rfl⟩

/-- Witness for C6 on a concrete one-choice vendor response. -/
theorem convert_to_chat_model_response_object_spec_witness :
    (((⟨[⟨"stop", 0, ⟨"hello", "assistant"⟩⟩], some ⟨1, 2, 3⟩, "cmpl-1",
        some "text-davinci-003",
        some ⟨[⟨"hello", "stop"⟩], some ⟨1, 2, 3⟩, some "cmpl-1",
          some "text-davinci-003"⟩⟩ : ModelResponse)).choices.getD 0
        dummyRespChoice).index = 0 ∧
    (((⟨[⟨"stop", 0, ⟨"hello", "assistant"⟩⟩], some ⟨1, 2, 3⟩, "cmpl-1",
        some "text-davinci-003",
        some ⟨[⟨"hello", "stop"⟩], some ⟨1, 2, 3⟩, some "cmpl-1",
          some "text-davinci-003"⟩⟩ : ModelResponse)).choices.getD 0
        dummyRespChoice).message.role = "assistant" ∧
    (((⟨[⟨"stop", 0, ⟨"hello", "assistant"⟩⟩], some ⟨1, 2, 3⟩, "cmpl-1",
        some "text-davinci-003",
        some ⟨[⟨"hello", "stop"⟩], some ⟨1, 2, 3⟩, some "cmpl-1",
          some "text-davinci-003"⟩⟩ : ModelResponse)).choices.getD 0
        dummyRespChoice).message.content =
      (([(⟨"hello", "stop"⟩ : TextChoice)]).getD 0 dummyTextChoice).text ∧
    (((⟨[⟨"stop", 0, ⟨"hello", "assistant"⟩⟩], some ⟨1, 2, 3⟩, "cmpl-1",
        some "text-davinci-003",
        some ⟨[⟨"hello", "stop"⟩], some ⟨1, 2, 3⟩, some "cmpl-1",
          some "text-davinci-003"⟩⟩ : ModelResponse)).choices.getD 0
        dummyRespChoice).finish_reason =
      (([(⟨"hello", "stop"⟩ : TextChoice)]).getD 0 dummyTextChoice).finish_reason :=
  convert_to_chat_model_response_object_spec.2.2.2
    ⟨[⟨"hello", "stop"⟩], some ⟨1, 2, 3⟩, some "cmpl-1", some "text-davinci-003"⟩
    ⟨[], none, "orig-id", none, none⟩
    ⟨[⟨"stop", 0, ⟨"hello", "assistant"⟩⟩], some ⟨1, 2, 3⟩, "cmpl-1",
      some "text-davinci-003",
      some ⟨[⟨"hello", "stop"⟩], some ⟨1, 2, 3⟩, some "cmpl-1",
        some "text-davinci-003"⟩⟩
    0 rfl (by decide)
